import Mathlib

/-!
Shallow embedding of the CRS-derivation core of the OGC_IAU2000_WKT_v2
scripts (`create_IAU2000_WKT2.py` and the `wkt` package).  Python floats are
modelled as exact rationals and fallible Python code as `Except PyError`.
Catalog tokens stay strings, as in the CSV rows the orchestrator reads.
-/

namespace IAU2000

/-- Errors a run of the Python code can raise. `valueError` models a failed
`float()` or `int()` conversion, `typeError` an operation applied to `None`,
`zeroDivisionError` the runtime error Python raises at a division by zero,
`assertionError` a failed `assert` statement, and `exception` an explicit
`raise Exception(msg)` in the source. -/
inductive PyError where
  | valueError (arg : String)
  | typeError
  | zeroDivisionError
  | assertionError (msg : String)
  | exception (msg : String)
deriving DecidableEq

/-- True for the errors the source raises on purpose (an `assert` guard or a
`raise Exception`), false for errors coming from the Python runtime itself. -/
def isRaisedByCode : PyError → Bool
  | .assertionError _ => true
  | .exception _ => true
  | _ => false

/-- Default tolerance `1e-9`, the `allowed_error` default of `WKT.isEqual`. -/
def tol : ℚ := 1 / 1000000000

/-- `WKT.isEqual(number1, number2, allowed_error)` (WKT.py). -/
def isEqual (number1 number2 allowed_error : ℚ) : Bool :=
  decide (|number1 - number2| ≤ allowed_error)

/-- `WKT.isEqual` at its default tolerance. -/
def isEqualB (number1 number2 : ℚ) : Bool :=
  isEqual number1 number2 tol

/-- `WKT.isDifferent` at the default tolerance. -/
def isDifferentB (number1 number2 : ℚ) : Bool :=
  !(isEqualB number1 number2)

/-- `WKT.isTriaxial(a, b, c)` where `a` is the semi-major axis, `b` the
semi-minor axis and `c` the axis b: the body counts as triaxial when `a`
differs from `b` and `a` differs from `c` (`b` is never compared to `c`). -/
def isTriaxialB (a b c : ℚ) : Bool :=
  isDifferentB a b && isDifferentB a c

/-- `WKT.computeInverseFlattening(semiMajorAxis, semiMinorAxis)`.  The zero
test on `semiMajorAxis` models the `ZeroDivisionError` Python raises at the
division itself: the source performs the division without any guard. -/
def computeInverseFlatteningE (semiMajorAxis semiMinorAxis : ℚ) : Except PyError ℚ :=
  if semiMajorAxis = 0 then .error .zeroDivisionError
  else
    let flattening := (semiMajorAxis - semiMinorAxis) / semiMajorAxis
    if isDifferentB flattening 0 then .ok (1 / flattening) else .ok flattening

/-- The two possible longitude count directions (`WKT.LongitudeAxis`). -/
inductive LongitudeAxis where
  | west
  | east
deriving DecidableEq

/-- `WKT.getLongitudeOrderFromRotation(rotation)`. -/
def getLongitudeOrderFromRotation (rotation : String) : Except PyError LongitudeAxis :=
  if rotation = "Direct" then .ok .west
  else if rotation = "Retrograde" then .ok .east
  else .error (.exception ("Unexpected value for rotation : " ++ rotation))

/-- The fields `WKT.__init__` stores on every descriptor. -/
structure WKTBase where
  geogcsName : String
  datumName : String
  sphereoidName : String
  radius : ℚ
  inverseFlattening : ℚ
  authorityName : String
  authorityCode : String
deriving DecidableEq

/-- `WKT.__init__`.  The only value-level `assert` the source keeps is
`radius > 0`; the `inverseFlattening >= 0` assert is commented out there, so
no condition on `inverseFlattening` is checked. -/
def wktInit (geogcsName datumName sphereoidName : String) (radius inverseFlattening : ℚ)
    (authorityName authorityCode : String) : Except PyError WKTBase :=
  if 0 < radius then
    .ok ⟨geogcsName, datumName, sphereoidName, radius, inverseFlattening,
         authorityName, authorityCode⟩
  else
    .error (.assertionError "radius must be > 0")

/-- Numeric value of a list of decimal digit characters. -/
def natOfDigits (cs : List Char) : Nat :=
  cs.foldl (fun acc c => acc * 10 + (c.toNat - 48)) 0

/-- Python `float(s)` on the decimal literals of the catalog: an optional
sign followed by digits with an optional fractional part.  Any other shape
(for example the empty string) raises a `ValueError`. -/
def pyFloat (s : String) : Except PyError ℚ :=
  let signBody : ℚ × List Char :=
    match s.data with
    | '-' :: rest => (-1, rest)
    | '+' :: rest => (1, rest)
    | cs => (1, cs)
  let intPart := signBody.2.takeWhile (·.isDigit)
  match signBody.2.dropWhile (·.isDigit) with
  | [] =>
    if intPart.isEmpty then .error (.valueError s)
    else .ok (signBody.1 * (natOfDigits intPart : ℚ))
  | '.' :: frac =>
    if frac.all (·.isDigit) && !(intPart.isEmpty && frac.isEmpty) then
      .ok (signBody.1 *
        ((natOfDigits intPart : ℚ) + (natOfDigits frac : ℚ) / (10 : ℚ) ^ frac.length))
    else .error (.valueError s)
  | _ => .error (.valueError s)

/-- Python `int(s)` on the identifier tokens of the catalog: an optional sign
followed by digits only. -/
def pyInt (s : String) : Except PyError Int :=
  let signBody : Int × List Char :=
    match s.data with
    | '-' :: rest => (-1, rest)
    | '+' :: rest => (1, rest)
    | cs => (1, cs)
  if signBody.2.isEmpty || !signBody.2.all (·.isDigit) then .error (.valueError s)
  else .ok (signBody.1 * (natOfDigits signBody.2 : Int))

/-- `IAUCatalog.__isInt`: `int(string)` succeeds. -/
def isIntStr (s : String) : Bool :=
  match pyInt s with
  | .ok _ => true
  | .error _ => false

/-- The data model of one catalog row (`WKTRecord` over the `Metadata` keys).
A field is `none` when the column held the empty string or the sentinel
`"-1"` (both normalized to Python `None` by `setRecord`). -/
structure WKTRecord where
  naifId : Option String
  body : Option String
  mean : Option String
  semiMajor : Option String
  axisB : Option String
  semiMinor : Option String
  rotation : Option String
  originLongName : Option String
  originLongPos : Option String
deriving DecidableEq

/-- The `""`/`"-1"` normalization `WKTRecord.setRecord` applies per column. -/
def normalizeToken (s : String) : Option String :=
  if s = "" || s = "-1" then none else some s

/-- `WKTRecord.setRecord(tokens, mapping)` with the column mapping fixed in
`IAUCatalog.__init__`.  A missing column is treated as the empty token. -/
def setRecord (tokens : List String) : WKTRecord where
  naifId := normalizeToken (tokens.getD 0 "")
  body := normalizeToken (tokens.getD 1 "")
  mean := normalizeToken (tokens.getD 2 "")
  semiMajor := normalizeToken (tokens.getD 3 "")
  axisB := normalizeToken (tokens.getD 4 "")
  semiMinor := normalizeToken (tokens.getD 5 "")
  rotation := normalizeToken (tokens.getD 6 "")
  originLongName := normalizeToken (tokens.getD 7 "")
  originLongPos := normalizeToken (tokens.getD 8 "")

/-- Using a `None` field where Python needs a string raises a `TypeError`. -/
def strOpt : Option String → Except PyError String
  | some s => .ok s
  | none => .error .typeError

/-- `float(...)` on a possibly-`None` record field. -/
def pyFloatOpt : Option String → Except PyError ℚ
  | some s => pyFloat s
  | none => .error .typeError

/-- `int(...)` on a possibly-`None` record field. -/
def pyIntOpt : Option String → Except PyError Int
  | some s => pyInt s
  | none => .error .typeError

/-- A geographic (ocentric or ographic) descriptor: the `WKT` base fields
plus the triaxial semi-axes when the triaxial variant was selected and the
longitude direction for the ographic variants. -/
structure GeoDesc where
  base : WKTBase
  axes : Option (ℚ × ℚ × ℚ)
  longitudeOrder : Option LongitudeAxis
deriving DecidableEq

/-- `OcentricFactory.create(recordIAU, pubYear, authorityName)`.  Each record
field is converted once here; the source re-runs `float()` on the same token
at each use, which gives the same value whenever the conversion succeeds. -/
def ocentricCreate (rec : WKTRecord) (pubYear authorityName : String) :
    Except PyError GeoDesc := do
  let naifId ← pyIntOpt rec.naifId
  let gisCode := naifId * 100
  let smaj ← pyFloatOpt rec.semiMajor
  let smin ← pyFloatOpt rec.semiMinor
  let ab ← pyFloatOpt rec.axisB
  let body ← strOpt rec.body
  if isTriaxialB smaj smin ab then
    let mean ← pyFloatOpt rec.mean
    let base ← wktInit (body ++ " " ++ pubYear ++ " ocentric")
      ("D_" ++ body ++ "_" ++ pubYear) (body ++ "_" ++ pubYear ++ "_" ++ authorityName)
      mean 0 authorityName (pubYear ++ ":" ++ toString gisCode)
    pure { base := base, axes := some (smaj, smin, ab), longitudeOrder := none }
  else
    let mean ← pyFloatOpt rec.mean
    let invFlat ← computeInverseFlatteningE smaj smin
    let base ← wktInit (body ++ " " ++ pubYear ++ " ocentric")
      ("D_" ++ body ++ "_" ++ pubYear) (body ++ "_" ++ pubYear ++ "_" ++ authorityName)
      mean invFlat authorityName (pubYear ++ ":" ++ toString gisCode)
    pure { base := base, axes := none, longitudeOrder := none }

/-- `OgraphicFactory.__isForbiddenToCreateWithRule1`: no rotation direction. -/
def rule1 (rec : WKTRecord) : Bool :=
  rec.rotation.isNone

/-- `OgraphicFactory.__isForbiddenToCreateWithRule2`: the body is the Sun or
the Moon (case-insensitively). -/
def rule2 (rec : WKTRecord) : Except PyError Bool := do
  let body ← strOpt rec.body
  pure (body.toUpper = "SUN" || body.toUpper = "MOON")

/-- `OgraphicFactory.__isForbiddenToCreateWithRule3`: the computed inverse
flattening is 0 within tolerance and the rotation is `Retrograde`. -/
def rule3 (rec : WKTRecord) : Except PyError Bool := do
  let smaj ← pyFloatOpt rec.semiMajor
  let smin ← pyFloatOpt rec.semiMinor
  let flattening ← computeInverseFlatteningE smaj smin
  pure (isEqualB flattening 0 && rec.rotation == some "Retrograde")

/-- `OgraphicFactory.__isForbiddenToCreateOgraphic`: the three rules in
order.  The source also returns a message naming the rule that fired; the
message only feeds the text of the raised exception and is dropped here. -/
def isForbiddenToCreateOgraphic (rec : WKTRecord) : Except PyError Bool := do
  if rule1 rec then pure true
  else
    let r2 ← rule2 rec
    if r2 then pure true
    else rule3 rec

/-- `OgraphicFactory.create(recordIAU, pubYear, authorityName)`.  The
triaxial variant passes the nominal radius `1.0` and inverse flattening `0.0`
to the base constructor; the ellipsoid variant passes the mean radius and the
computed inverse flattening. -/
def ographicCreate (rec : WKTRecord) (pubYear authorityName : String) :
    Except PyError GeoDesc := do
  let forbidden ← isForbiddenToCreateOgraphic rec
  if forbidden then
    .error (.exception "Forbidden to create ographic CRS")
  else do
    let naifId ← pyIntOpt rec.naifId
    let gisCode := naifId * 100 + 1
    let smaj ← pyFloatOpt rec.semiMajor
    let smin ← pyFloatOpt rec.semiMinor
    let ab ← pyFloatOpt rec.axisB
    let body ← strOpt rec.body
    let rotation ← strOpt rec.rotation
    if isTriaxialB smaj smin ab then
      let lon ← getLongitudeOrderFromRotation rotation
      let base ← wktInit (body ++ " " ++ pubYear ++ " ographic")
        ("D_" ++ body ++ "_" ++ pubYear) (body ++ "_" ++ pubYear ++ "_" ++ authorityName)
        1 0 authorityName ("IAU:" ++ pubYear ++ ":" ++ toString gisCode)
      pure { base := base, axes := some (smaj, smin, ab), longitudeOrder := some lon }
    else
      let mean ← pyFloatOpt rec.mean
      let invFlat ← computeInverseFlatteningE smaj smin
      let lon ← getLongitudeOrderFromRotation rotation
      let base ← wktInit (body ++ " " ++ pubYear ++ " ographic")
        ("D_" ++ body ++ "_" ++ pubYear) (body ++ "_" ++ pubYear ++ "_" ++ authorityName)
        mean invFlat authorityName ("IAU:" ++ pubYear ++ ":" ++ toString gisCode)
      pure { base := base, axes := none, longitudeOrder := some lon }

/-- One entry of `ProjectedWKT.Projection`: the enum member name, the integer
offset code for the ocentric variant, the display name, the ordered parameter
list and the polar flag (the `url` field only documents the source). -/
structure Projection where
  name : String
  code : Int
  projection : String
  parameters : List (String × ℚ)
  isPolar : Bool
deriving DecidableEq

/-- The fixed projection catalog of `ProjectedWKT.Projection`, in declaration
order (the commented-out `AUTO_OBLIQUE_CYLINDRICAL`, code 78, is absent). -/
def projections : List Projection := [
  { name := "EQUIRECTANGULAR_0", code := 10, projection := "Equirectangular",
    parameters := [("False_Easting", 0), ("False_Northing", 0),
      ("Central_Meridian", 0), ("latitude_Of_Origin", 0)], isPolar := false },
  { name := "EQUIRECTANGULAR_180", code := 12, projection := "Equirectangular",
    parameters := [("False_Easting", 0), ("False_Northing", 0),
      ("Central_Meridian", 180), ("Latitude_Of_Origin", 0)], isPolar := false },
  { name := "SINUSOIDAL_0", code := 14, projection := "Sinusoidal",
    parameters := [("False_Easting", 0), ("False_Northing", 0),
      ("Longitude_Of_Center", 0)], isPolar := false },
  { name := "SINUSOIDAL_180", code := 16, projection := "Sinusoidal",
    parameters := [("False_Easting", 0), ("False_Northing", 0),
      ("Longitude_Of_Center", 180)], isPolar := false },
  { name := "STEREOGRAPHIC_NORTH", code := 18, projection := "Stereographic",
    parameters := [("False_Easting", 0), ("False_Northing", 0),
      ("Central_Meridian", 0), ("Scale_Factor", 1), ("Latitude_Of_Origin", 90)],
    isPolar := true },
  { name := "STEREOGRAPHIC_SOUTH", code := 20, projection := "Stereographic",
    parameters := [("False_Easting", 0), ("False_Northing", 0),
      ("Central_Meridian", 0), ("Scale_Factor", 1), ("Latitude_Of_Origin", -90)],
    isPolar := true },
  { name := "MOLLWEIDE_0", code := 22, projection := "Mollweide",
    parameters := [("False_Easting", 0), ("False_Northing", 0),
      ("Central_Meridian", 0)], isPolar := false },
  { name := "MOLLWEIDE_180", code := 24, projection := "Mollweide",
    parameters := [("False_Easting", 0), ("False_Northing", 0),
      ("Central_Meridian", 180)], isPolar := false },
  { name := "ROBINSON_0", code := 26, projection := "Robinson",
    parameters := [("False_Easting", 0), ("False_Northing", 0),
      ("Longitude_Of_Center", 0)], isPolar := false },
  { name := "ROBINSON_180", code := 28, projection := "Robinson",
    parameters := [("False_Easting", 0), ("False_Northing", 0),
      ("Longitude_Of_Center", 180)], isPolar := false },
  { name := "AUTO_SINUSOIDAL", code := 60, projection := "Sinusoidal",
    parameters := [("False_Easting", 0), ("False_Northing", 0),
      ("Longitude_Of_Center", 0)], isPolar := false },
  { name := "AUTO_STEREOGRAPHIC", code := 62, projection := "Stereographic",
    parameters := [("False_Easting", 0), ("False_Northing", 0),
      ("Central_Meridian", 0), ("Scale_Factor", 1), ("Latitude_Of_Origin", 0)],
    isPolar := false },
  { name := "AUTO_TRANSVERSE_MERCATOR", code := 64, projection := "Transverse_Mercator",
    parameters := [("False_Easting", 0), ("False_Northing", 0),
      ("Central_Meridian", 0), ("Scale_Factor", 9996/10000), ("Latitude_Of_Origin", 0)],
    isPolar := false },
  { name := "AUTO_ORTHOGRAPHIC", code := 66, projection := "Orthographic",
    parameters := [("False_Easting", 0), ("False_Northing", 0),
      ("Central_Meridian", 0), ("Latitude_Of_Origin", 90)], isPolar := true },
  { name := "AUTO_EQUIRECTANGULAR", code := 68, projection := "Equirectangular",
    parameters := [("False_Easting", 0), ("False_Northing", 0),
      ("Central_Meridian", 180), ("Latitude_Of_Origin", 0)], isPolar := false },
  { name := "AUTO_LAMBERT_CONFORMAL_CONIC", code := 70,
    projection := "Lambert_Conformal_Conic_2SP",
    parameters := [("False_Easting", 0), ("False_Northing", 0),
      ("Central_Meridian", 0), ("Standard_Parallel_1", -20),
      ("Standard_Parallel_2", 20), ("Latitude_Of_Origin", 0)], isPolar := false },
  { name := "AUTO_LAMBERT_AZIMUTHAL_EQUAL", code := 72,
    projection := "Lambert_Azimuthal_Equal_Area",
    parameters := [("False_Easting", 0), ("False_Northing", 0),
      ("Longitude_Of_Center", 0), ("Latitude_Of_Center", 90)], isPolar := true },
  { name := "AUTO_MERCATOR", code := 74, projection := "Mercator_1SP",
    parameters := [("False_Easting", 0), ("False_Northing", 0),
      ("Central_Meridian", 0), ("Scale_Factor", 1)], isPolar := false },
  { name := "AUTO_ALBERS", code := 76, projection := "Albers_Conic_Equal_Area",
    parameters := [("False_Easting", 0), ("False_Northing", 0),
      ("Longitude_Of_Center", 0), ("Standard_Parallel_1", 60),
      ("Standard_Parallel_2", 20), ("Latitude_Of_Center", 40)], isPolar := false },
  { name := "AUTO_MOLLWEIDE", code := 80, projection := "Mollweide",
    parameters := [("False_Easting", 0), ("False_Northing", 0),
      ("Central_Meridian", 0)], isPolar := false },
  { name := "AUTO_ROBINSON", code := 82, projection := "Robinson",
    parameters := [("False_Easting", 0), ("False_Northing", 0),
      ("Longitude_of_center", 0)], isPolar := false }]

/-- A projected descriptor (`ProjectedWKT`): the wrapped base descriptor plus
the fields of the supplied `planetaryProjected` record, which back the
overridden `getAuthorityName`/`getAuthorityCode` accessors. -/
structure ProjDesc where
  base : GeoDesc
  proj : Projection
  projectionName : String
  authorityName : String
  authorityCode : String
deriving DecidableEq

/-- The kinds the orchestrator tags each emitted CRS entry with
(`WKT.CRS`). -/
inductive CrsType where
  | ocentric
  | ographic
  | projectedOcentric
  | projectedOgraphic
deriving DecidableEq

/-- The payload of one emitted entry: a geographic or a projected WKT. -/
inductive WktObj where
  | geo (g : GeoDesc)
  | projected (p : ProjDesc)
deriving DecidableEq

/-- One element of the list `IAUCatalog` aggregates: the dicts with keys
`target`, `wkt` and `type` appended by `__processLine`. -/
structure CrsEntry where
  target : Option String
  wkt : WktObj
  type : CrsType
deriving DecidableEq

/-- The authority code carried by an emitted entry's WKT object. -/
def entryAuthorityCode (e : CrsEntry) : String :=
  match e.wkt with
  | .geo g => g.base.authorityCode
  | .projected p => p.authorityCode

/-- The per-projection body of the loop in `IAUCatalog.__createProjectedCrs`.
The source computes `gisCode = gisCode + 1` before building the ographic
projection but never stores the incremented value into the shared
`planetaryProjected` record, so the ographic projection reuses
`authorityCode` unchanged. -/
def projPairEntries (target : Option String) (body : String) (naifId : Int)
    (theYear group : String) (ocentric : GeoDesc) (ographic : Option GeoDesc)
    (p : Projection) : List CrsEntry :=
  let gisCode := naifId * 100 + p.code
  let projectionName := body ++ "_" ++ p.projection
  let authorityCode := theYear ++ ":" ++ toString gisCode
  let ocEntry : CrsEntry :=
    ⟨target, .projected ⟨ocentric, p, projectionName, group, authorityCode⟩,
     .projectedOcentric⟩
  match ographic with
  | none => [ocEntry]
  | some og =>
    let _gisCodePlusOne := gisCode + 1
    [ocEntry,
     ⟨target, .projected ⟨og, p, projectionName, group, authorityCode⟩,
      .projectedOgraphic⟩]

/-- Concatenates the per-projection entries over a projection list. -/
def expandProjections (step : Projection → List CrsEntry) :
    List Projection → List CrsEntry
  | [] => []
  | p :: ps => step p ++ expandProjections step ps

/-- `IAUCatalog.__createProjectedCrs(recordIAU, ocentric, ographic)`.  The
body string is read once up front; the source reads it anew at each loop
iteration, which is equivalent because the projection list is non-empty. -/
def createProjectedCrs (rec : WKTRecord) (ocentric : GeoDesc)
    (ographic : Option GeoDesc) (theYear group : String) :
    Except PyError (List CrsEntry) := do
  let naifId ← pyIntOpt rec.naifId
  let body ← strOpt rec.body
  pure (expandProjections
    (projPairEntries rec.body body naifId theYear group ocentric ographic) projections)

/-- `Except` value or a default, used to name computed descriptors. -/
def exceptGetD {ε α : Type} (e : Except ε α) (d : α) : α :=
  match e with
  | .ok a => a
  | .error _ => d

/-- `Except` to `Option`, the effect of a `try`/`except` that keeps `None`. -/
def exceptToOption {ε α : Type} : Except ε α → Option α
  | .ok a => some a
  | .error _ => none

/-- `IAUCatalog.__processLine(tokens)`: one ocentric entry, one ographic
entry when `OgraphicFactory.create` did not raise (the `try`/`except` turns
a failure into `ographic = None`), then the projected entries. -/
def processLine (tokens : List String) (theYear group : String) :
    Except PyError (List CrsEntry) := do
  let record := setRecord tokens
  let ocentric ← ocentricCreate record theYear group
  let ographic := exceptToOption (ographicCreate record theYear group)
  let ogEntries : List CrsEntry :=
    match ographic with
    | some og => [⟨record.body, .geo og, .ographic⟩]
    | none => []
  let projected ← createProjectedCrs record ocentric ographic theYear group
  pure ([⟨record.body, .geo ocentric, .ocentric⟩] ++ ogEntries ++ projected)

/-- The row-validation test of `IAUCatalog.processFile`, with Python's
evaluation order: the identifier must parse as an int, and the mean,
semi-major and semi-minor tokens are converted with `float()` (a conversion
failure escapes, since only `__processLine` runs inside the `try`) and
compared to the sentinel `-1`; `true` means the row is logged and skipped. -/
def rowSkipCheck (tokens : List String) : Except PyError Bool :=
  if !isIntStr (tokens.getD 0 "") then .ok true
  else do
    let mean ← pyFloat (tokens.getD 2 "")
    if isEqualB mean (-1) then .ok true
    else do
      let smaj ← pyFloat (tokens.getD 3 "")
      if isEqualB smaj (-1) then .ok true
      else do
        let smin ← pyFloat (tokens.getD 5 "")
        .ok (isEqualB smin (-1))

/-- `IAUCatalog.processFile` over the already-split lines: an invalid row is
skipped, a `__processLine` failure is caught and the batch continues, and a
failure of the validation test itself propagates out. -/
def processFile (theYear group : String) : List (List String) →
    Except PyError (List CrsEntry)
  | [] => .ok []
  | t :: rest => do
    let skip ← rowSkipCheck t
    if skip then processFile theYear group rest
    else
      match processLine t theYear group with
      | .ok entries => do
        let tail ← processFile theYear group rest
        pure (entries ++ tail)
      | .error _ => processFile theYear group rest

/-- The Mars row of the IAU2015 catalog. -/
def marsTokens : List String :=
  ["499", "Mars", "3389500.00", "3396190.00", "3396190.00", "3376200.00",
   "Direct", "Airy-0", "0"]

/-- The Sun row of the IAU2015 catalog (ographic suppressed by rule 2). -/
def sunTokens : List String :=
  ["10", "Sun", "695700000.00", "695700000.00", "695700000.00", "695700000.00",
   "Direct", "", ""]

/-- A row carrying the sentinel `-1` radii (skipped by validation). -/
def halleyTokens : List String :=
  ["1000036", "Halley", "5500.00", "-1", "-1", "-1", "", "", ""]

/-- A row whose identifier is an integer but whose Mean token is empty. -/
def badMeanTokens : List String :=
  ["499", "Mars", "", "3396190.00", "3396190.00", "3376200.00",
   "Direct", "Airy-0", "0"]

/-- The Mars record after `setRecord`. -/
def marsRecord : WKTRecord := setRecord marsTokens

/-- A neutral descriptor used as `exceptGetD` default. -/
def defaultGeoDesc : GeoDesc :=
  ⟨⟨"", "", "", 1, 0, "", ""⟩, none, none⟩

/-- The ocentric descriptor the factory derives for the Mars 2015 row. -/
def marsOcentricDesc : GeoDesc :=
  exceptGetD (ocentricCreate marsRecord "2015" "IAU") defaultGeoDesc

/-- The ographic descriptor the factory derives for the Mars 2015 row. -/
def marsOgraphicDesc : GeoDesc :=
  exceptGetD (ographicCreate marsRecord "2015" "IAU") defaultGeoDesc

/-! ### Helper lemmas -/

theorem isDifferentB_eq_true_iff (a b : ℚ) : isDifferentB a b = true ↔ tol < |a - b| := by
  simp [isDifferentB, isEqualB, isEqual, not_le]

theorem isDifferentB_eq_false_iff (a b : ℚ) : isDifferentB a b = false ↔ |a - b| ≤ tol := by
  simp [isDifferentB, isEqualB, isEqual]

theorem computeInverseFlatteningE_of_ne (a b : ℚ) (h : a ≠ 0) :
    computeInverseFlatteningE a b =
      if isDifferentB ((a - b) / a) 0 then .ok (1 / ((a - b) / a))
      else .ok ((a - b) / a) := by
  simp [computeInverseFlatteningE, h]

theorem computeInverseFlatteningE_isOk (a b : ℚ) (h : a ≠ 0) :
    ∃ q, computeInverseFlatteningE a b = .ok q := by
  rw [computeInverseFlatteningE_of_ne a b h]
  by_cases hd : isDifferentB ((a - b) / a) 0 = true
  · exact ⟨_, if_pos hd⟩
  · exact ⟨_, if_neg hd⟩

theorem exceptBind_ok {ε α β : Type} (a : α) (f : α → Except ε β) :
    (Except.ok a >>= f : Except ε β) = f a := rfl

theorem exceptBind_error {ε α β : Type} (e : ε) (f : α → Except ε β) :
    (Except.error e >>= f : Except ε β) = .error e := rfl

theorem exceptPure_eq {ε α : Type} (a : α) : (pure a : Except ε α) = .ok a := rfl

theorem strOpt_some (s : String) : strOpt (some s) = .ok s := rfl

/-! ### Claim C3 -/

/-- C3 (amended): for `semiMajor > 0`, `computeInverseFlattening` returns
`1/flattening` when `flattening = (semiMajor - semiMinor)/semiMajor` differs
from 0 by more than the `1e-9` tolerance, and returns `flattening` itself
(hence `0` for an exact sphere) when `|flattening| ≤ 1e-9`; in particular its
value at `(6378137, 6356752)` is within `1e-2` of `298.257`. -/
theorem c3_compute_inverse_flattening (semiMajorAxis semiMinorAxis : ℚ)
    (h : 0 < semiMajorAxis) :
    (tol < |(semiMajorAxis - semiMinorAxis) / semiMajorAxis| →
      computeInverseFlatteningE semiMajorAxis semiMinorAxis =
        .ok (1 / ((semiMajorAxis - semiMinorAxis) / semiMajorAxis))) ∧
    (|(semiMajorAxis - semiMinorAxis) / semiMajorAxis| ≤ tol →
      computeInverseFlatteningE semiMajorAxis semiMinorAxis =
        .ok ((semiMajorAxis - semiMinorAxis) / semiMajorAxis)) ∧
    (semiMajorAxis = semiMinorAxis →
      computeInverseFlatteningE semiMajorAxis semiMinorAxis = .ok 0) ∧
    computeInverseFlatteningE 6378137 6356752 = .ok (6378137 / 21385) ∧
    |(6378137 : ℚ) / 21385 - 298257 / 1000| ≤ 1 / 100 := by
  have hne : semiMajorAxis ≠ 0 := ne_of_gt h
  have base := computeInverseFlatteningE_of_ne semiMajorAxis semiMinorAxis hne
  refine ⟨fun hlt => ?_, fun hle => ?_, fun heq => ?_, by with_unfolding_all rfl, ?_⟩
  · have hd : isDifferentB ((semiMajorAxis - semiMinorAxis) / semiMajorAxis) 0 = true := by
      rw [isDifferentB_eq_true_iff]
      simpa using hlt
    rw [base, if_pos hd]
  · have hd : isDifferentB ((semiMajorAxis - semiMinorAxis) / semiMajorAxis) 0 = false := by
      rw [isDifferentB_eq_false_iff]
      simpa using hle
    rw [base]
    simp [hd]
  · have hz : (semiMajorAxis - semiMinorAxis) / semiMajorAxis = 0 := by
      rw [heq, sub_self, zero_div]
    have hd : isDifferentB ((semiMajorAxis - semiMinorAxis) / semiMajorAxis) 0 = false := by
      rw [isDifferentB_eq_false_iff, hz]
      norm_num [tol]
    rw [base]
    simp [hd, hz]
  · rw [abs_le]
    constructor <;> norm_num

/-- Witness for C3 at the Earth-like axes of the spec. -/
theorem c3_compute_inverse_flattening_witness :
    computeInverseFlatteningE 6378137 6356752 =
      .ok (1 / ((6378137 - 6356752 : ℚ) / 6378137)) :=
  (c3_compute_inverse_flattening 6378137 6356752 (by norm_num)).1 (by
    rw [tol, abs_of_nonneg (by norm_num)]
    norm_num)

/-- C3 counterexample to the claim as stated: at `semiMajor = 2e9`,
`semiMinor = 2e9 - 1` the flattening is the non-zero `5e-10`, yet the
function returns the flattening itself, not its inverse, because the
non-zero test uses the `1e-9` tolerance. -/
theorem c3_counterexample :
    ((2000000000 : ℚ) - 1999999999) / 2000000000 ≠ 0 ∧
    computeInverseFlatteningE 2000000000 1999999999 = .ok (1 / 2000000000) ∧
    (1 / 2000000000 : ℚ) ≠ 1 / (((2000000000 : ℚ) - 1999999999) / 2000000000) := by
  refine ⟨by norm_num, by with_unfolding_all rfl, by norm_num⟩

/-! ### Claim C4 -/

/-- C4 (amended): at `semiMajor = 0` the computation fails, but with the
runtime `ZeroDivisionError` coming from the division itself; the source
raises no guard of its own (no assert, no explicit exception). -/
theorem c4_zero_division (semiMinorAxis : ℚ) :
    computeInverseFlatteningE 0 semiMinorAxis = .error .zeroDivisionError ∧
    isRaisedByCode .zeroDivisionError = false :=
  ⟨by simp [computeInverseFlatteningE], rfl⟩

/-- C4 counterexample to the claim as stated: the failure at `semiMajor = 0`
is the unguarded runtime division error, not an error the code raises. -/
theorem c4_counterexample :
    computeInverseFlatteningE 0 6356752 = .error .zeroDivisionError ∧
    isRaisedByCode .zeroDivisionError = false :=
  ⟨by simp [computeInverseFlatteningE], rfl⟩

/-! ### Claim C5 -/

/-- C5: `getLongitudeOrderFromRotation` maps `"Direct"` to West and
`"Retrograde"` to East, and raises on every other value: no branch returns a
default direction. -/
theorem c5_longitude_direction_from_rotation (rotation : String) :
    (rotation = "Direct" →
      getLongitudeOrderFromRotation rotation = .ok LongitudeAxis.west) ∧
    (rotation = "Retrograde" →
      getLongitudeOrderFromRotation rotation = .ok LongitudeAxis.east) ∧
    (rotation ≠ "Direct" → rotation ≠ "Retrograde" →
      getLongitudeOrderFromRotation rotation =
        .error (.exception ("Unexpected value for rotation : " ++ rotation))) := by
  refine ⟨fun h => by subst h; rfl, fun h => by subst h; rfl, fun h1 h2 => ?_⟩
  simp only [getLongitudeOrderFromRotation, if_neg h1, if_neg h2]

/-- Witness for C5 on the three kinds of rotation values. -/
theorem c5_longitude_direction_from_rotation_witness :
    getLongitudeOrderFromRotation "Direct" = .ok LongitudeAxis.west ∧
    getLongitudeOrderFromRotation "Retrograde" = .ok LongitudeAxis.east ∧
    getLongitudeOrderFromRotation "Unknown" =
      .error (.exception ("Unexpected value for rotation : " ++ "Unknown")) :=
  ⟨(c5_longitude_direction_from_rotation "Direct").1 rfl,
   (c5_longitude_direction_from_rotation "Retrograde").2.1 rfl,
   (c5_longitude_direction_from_rotation "Unknown").2.2 (by decide) (by decide)⟩

/-! ### Claim C6 -/

/-- C6: `isTriaxial` is true exactly when the semi-major axis differs from
the semi-minor axis and from the axis b, each by more than the `1e-9`
tolerance; the axis b is never compared against the semi-minor axis, so the
oblate-Earth triple is not triaxial while the Phobos-like triple is. -/
theorem c6_is_triaxial_test :
    (∀ a b c : ℚ, isTriaxialB a b c = true ↔ tol < |a - b| ∧ tol < |a - c|) ∧
    isTriaxialB 6378137 6356752 6378137 = false ∧
    isTriaxialB 13000 9100 11400 = true := by
  refine ⟨fun a b c => ?_, by with_unfolding_all rfl, by with_unfolding_all rfl⟩
  simp [isTriaxialB, isDifferentB_eq_true_iff]

/-- Witness for C6 on the two concrete triples of the spec. -/
theorem c6_is_triaxial_test_witness :
    isTriaxialB 13000 9100 11400 = true ∧
    isTriaxialB 6378137 6356752 6378137 = false :=
  ⟨c6_is_triaxial_test.2.2, c6_is_triaxial_test.2.1⟩

/-! ### Claim C9 -/

/-- C9: for `0 < semiMajor < semiMinor` the computed inverse flattening is
negative, and the `WKT` constructor accepts it: only `radius > 0` is
checked, no assert rejects a negative inverse flattening. -/
theorem c9_negative_inverse_flattening_accepted (a b : ℚ) (ha : 0 < a) (hab : a < b) :
    (∃ q, computeInverseFlatteningE a b = .ok q ∧ q < 0) ∧
    (∀ q, computeInverseFlatteningE a b = .ok q →
      ∀ (geogcsName datumName sphereoidName authorityName authorityCode : String)
        (radius : ℚ), 0 < radius →
        wktInit geogcsName datumName sphereoidName radius q authorityName authorityCode =
          .ok ⟨geogcsName, datumName, sphereoidName, radius, q,
               authorityName, authorityCode⟩) := by
  have hne : a ≠ 0 := ne_of_gt ha
  have hf : (a - b) / a < 0 := div_neg_of_neg_of_pos (by linarith) ha
  constructor
  · rw [computeInverseFlatteningE_of_ne a b hne]
    by_cases hd : isDifferentB ((a - b) / a) 0 = true
    · exact ⟨_, if_pos hd, one_div_neg.mpr hf⟩
    · exact ⟨_, if_neg hd, hf⟩
  · intro q _ geogcsName datumName sphereoidName authorityName authorityCode radius hr
    simp [wktInit, hr]

/-- Witness for C9: axes `(1, 2)` give inverse flattening `-1`, which the
constructor accepts together with a positive radius. -/
theorem c9_negative_inverse_flattening_accepted_witness :
    computeInverseFlatteningE 1 2 = .ok (-1) ∧ (-1 : ℚ) < 0 ∧
    wktInit "Mars 2015 ocentric" "D_Mars_2015" "Mars_2015_IAU" 3389500 (-1)
        "IAU" "2015:49900" =
      .ok ⟨"Mars 2015 ocentric", "D_Mars_2015", "Mars_2015_IAU", 3389500, -1,
           "IAU", "2015:49900"⟩ := by
  have h := c9_negative_inverse_flattening_accepted 1 2 (by norm_num) (by norm_num)
  exact ⟨by with_unfolding_all rfl, by norm_num,
    h.2 (-1) (by with_unfolding_all rfl) "Mars 2015 ocentric" "D_Mars_2015"
      "Mars_2015_IAU" "IAU" "2015:49900" 3389500 (by norm_num)⟩

/-! ### Factory field lemmas -/

theorem ocentricCreate_fields (rec : WKTRecord) (pubYear group : String)
    (naifId : Int) (body : String) (g : GeoDesc)
    (hn : pyIntOpt rec.naifId = .ok naifId)
    (hb : rec.body = some body)
    (hoc : ocentricCreate rec pubYear group = .ok g) :
    g.base.geogcsName = body ++ " " ++ pubYear ++ " ocentric" ∧
    g.base.datumName = "D_" ++ body ++ "_" ++ pubYear ∧
    g.base.sphereoidName = body ++ "_" ++ pubYear ++ "_" ++ group ∧
    g.base.authorityName = group ∧
    g.base.authorityCode = pubYear ++ ":" ++ toString (naifId * 100) := by
  unfold ocentricCreate at hoc
  rw [hn, exceptBind_ok] at hoc
  cases hsj : pyFloatOpt rec.semiMajor with
  | error e => rw [hsj, exceptBind_error] at hoc; exact absurd hoc (by simp)
  | ok smaj =>
  rw [hsj, exceptBind_ok] at hoc
  cases hsn : pyFloatOpt rec.semiMinor with
  | error e => rw [hsn, exceptBind_error] at hoc; exact absurd hoc (by simp)
  | ok smin =>
  rw [hsn, exceptBind_ok] at hoc
  cases hab2 : pyFloatOpt rec.axisB with
  | error e => rw [hab2, exceptBind_error] at hoc; exact absurd hoc (by simp)
  | ok ab =>
  rw [hab2, exceptBind_ok, hb, strOpt_some, exceptBind_ok] at hoc
  split at hoc
  · cases hm : pyFloatOpt rec.mean with
    | error e => rw [hm, exceptBind_error] at hoc; exact absurd hoc (by simp)
    | ok mean =>
    rw [hm, exceptBind_ok] at hoc
    unfold wktInit at hoc
    split at hoc
    · rw [exceptBind_ok, exceptPure_eq] at hoc
      injection hoc with h
      subst h
      exact ⟨rfl, rfl, rfl, rfl, rfl⟩
    · rw [exceptBind_error] at hoc; exact absurd hoc (by simp)
  · cases hm : pyFloatOpt rec.mean with
    | error e => rw [hm, exceptBind_error] at hoc; exact absurd hoc (by simp)
    | ok mean =>
    rw [hm, exceptBind_ok] at hoc
    cases hq : computeInverseFlatteningE smaj smin with
    | error e => rw [hq, exceptBind_error] at hoc; exact absurd hoc (by simp)
    | ok invFlat =>
    rw [hq, exceptBind_ok] at hoc
    unfold wktInit at hoc
    split at hoc
    · rw [exceptBind_ok, exceptPure_eq] at hoc
      injection hoc with h
      subst h
      exact ⟨rfl, rfl, rfl, rfl, rfl⟩
    · rw [exceptBind_error] at hoc; exact absurd hoc (by simp)

theorem ographicCreate_fields (rec : WKTRecord) (pubYear group : String)
    (naifId : Int) (body : String) (g : GeoDesc)
    (hn : pyIntOpt rec.naifId = .ok naifId)
    (hb : rec.body = some body)
    (hog : ographicCreate rec pubYear group = .ok g) :
    g.base.geogcsName = body ++ " " ++ pubYear ++ " ographic" ∧
    g.base.datumName = "D_" ++ body ++ "_" ++ pubYear ∧
    g.base.sphereoidName = body ++ "_" ++ pubYear ++ "_" ++ group ∧
    g.base.authorityName = group ∧
    g.base.authorityCode = "IAU:" ++ pubYear ++ ":" ++ toString (naifId * 100 + 1) := by
  unfold ographicCreate at hog
  cases hforb : isForbiddenToCreateOgraphic rec with
  | error e => rw [hforb, exceptBind_error] at hog; exact absurd hog (by simp)
  | ok forbidden =>
  rw [hforb, exceptBind_ok] at hog
  cases forbidden with
  | true => exact absurd hog (by simp)
  | false =>
  simp only [Bool.false_eq_true, if_false] at hog
  rw [hn, exceptBind_ok] at hog
  cases hsj : pyFloatOpt rec.semiMajor with
  | error e => rw [hsj, exceptBind_error] at hog; exact absurd hog (by simp)
  | ok smaj =>
  rw [hsj, exceptBind_ok] at hog
  cases hsn : pyFloatOpt rec.semiMinor with
  | error e => rw [hsn, exceptBind_error] at hog; exact absurd hog (by simp)
  | ok smin =>
  rw [hsn, exceptBind_ok] at hog
  cases hab2 : pyFloatOpt rec.axisB with
  | error e => rw [hab2, exceptBind_error] at hog; exact absurd hog (by simp)
  | ok ab =>
  rw [hab2, exceptBind_ok, hb, strOpt_some, exceptBind_ok] at hog
  cases hrot : rec.rotation with
  | none => rw [hrot] at hog; exact absurd hog (by simp [strOpt, exceptBind_error])
  | some rotation =>
  rw [hrot, strOpt_some, exceptBind_ok] at hog
  split at hog
  · cases hlon : getLongitudeOrderFromRotation rotation with
    | error e => rw [hlon, exceptBind_error] at hog; exact absurd hog (by simp)
    | ok lon =>
    rw [hlon, exceptBind_ok] at hog
    unfold wktInit at hog
    split at hog
    · rw [exceptBind_ok, exceptPure_eq] at hog
      injection hog with h
      subst h
      exact ⟨rfl, rfl, rfl, rfl, rfl⟩
    · rw [exceptBind_error] at hog; exact absurd hog (by simp)
  · cases hm : pyFloatOpt rec.mean with
    | error e => rw [hm, exceptBind_error] at hog; exact absurd hog (by simp)
    | ok mean =>
    rw [hm, exceptBind_ok] at hog
    cases hq : computeInverseFlatteningE smaj smin with
    | error e => rw [hq, exceptBind_error] at hog; exact absurd hog (by simp)
    | ok invFlat =>
    rw [hq, exceptBind_ok] at hog
    cases hlon : getLongitudeOrderFromRotation rotation with
    | error e => rw [hlon, exceptBind_error] at hog; exact absurd hog (by simp)
    | ok lon =>
    rw [hlon, exceptBind_ok] at hog
    unfold wktInit at hog
    split at hog
    · rw [exceptBind_ok, exceptPure_eq] at hog
      injection hog with h
      subst h
      exact ⟨rfl, rfl, rfl, rfl, rfl⟩
    · rw [exceptBind_error] at hog; exact absurd hog (by simp)

/-! ### Claim C7 -/

/-- C7: the ocentric descriptor carries authority code `"<year>:<naifId*100>"`
and the names `"<body> <year> ocentric"`, `"D_<body>_<year>"` and
`"<body>_<year>_<authorityGroup>"`, while its ographic sibling carries the
authority code `"IAU:<year>:<naifId*100 + 1>"` with the extra `"IAU:"`
prefix. -/
theorem c7_descriptor_names_and_codes (rec : WKTRecord) (pubYear group : String)
    (naifId : Int) (body : String) (g g' : GeoDesc)
    (hn : pyIntOpt rec.naifId = .ok naifId)
    (hb : rec.body = some body)
    (hoc : ocentricCreate rec pubYear group = .ok g)
    (hog : ographicCreate rec pubYear group = .ok g') :
    g.base.authorityCode = pubYear ++ ":" ++ toString (naifId * 100) ∧
    g.base.geogcsName = body ++ " " ++ pubYear ++ " ocentric" ∧
    g.base.datumName = "D_" ++ body ++ "_" ++ pubYear ∧
    g.base.sphereoidName = body ++ "_" ++ pubYear ++ "_" ++ group ∧
    g'.base.authorityCode = "IAU:" ++ pubYear ++ ":" ++ toString (naifId * 100 + 1) := by
  obtain ⟨h1, h2, h3, _, h5⟩ := ocentricCreate_fields rec pubYear group naifId body g hn hb hoc
  obtain ⟨_, _, _, _, h5'⟩ := ographicCreate_fields rec pubYear group naifId body g' hn hb hog
  exact ⟨h5, h1, h2, h3, h5'⟩

/-- Witness for C7 on the Mars 2015 row. -/
theorem c7_descriptor_names_and_codes_witness :
    marsOcentricDesc.base.authorityCode = "2015" ++ ":" ++ toString ((499 : Int) * 100) ∧
    marsOcentricDesc.base.geogcsName = "Mars" ++ " " ++ "2015" ++ " ocentric" ∧
    marsOcentricDesc.base.datumName = "D_" ++ "Mars" ++ "_" ++ "2015" ∧
    marsOcentricDesc.base.sphereoidName = "Mars" ++ "_" ++ "2015" ++ "_" ++ "IAU" ∧
    marsOgraphicDesc.base.authorityCode =
      "IAU:" ++ "2015" ++ ":" ++ toString ((499 : Int) * 100 + 1) :=
  c7_descriptor_names_and_codes marsRecord "2015" "IAU" 499 "Mars"
    marsOcentricDesc marsOgraphicDesc (by with_unfolding_all rfl) rfl
    (by with_unfolding_all rfl) (by with_unfolding_all rfl)

/-! ### Factory success lemmas -/

theorem getLongitudeOrderFromRotation_direct :
    getLongitudeOrderFromRotation "Direct" = .ok LongitudeAxis.west := rfl

theorem getLongitudeOrderFromRotation_retrograde :
    getLongitudeOrderFromRotation "Retrograde" = .ok LongitudeAxis.east := rfl

theorem ocentricCreate_isOk (rec : WKTRecord) (pubYear group : String)
    (naifId : Int) (body : String) (mean smaj smin ab : ℚ)
    (hn : pyIntOpt rec.naifId = .ok naifId)
    (hb : rec.body = some body)
    (hm : pyFloatOpt rec.mean = .ok mean) (hm0 : 0 < mean)
    (hsj : pyFloatOpt rec.semiMajor = .ok smaj) (hsj0 : 0 < smaj)
    (hsn : pyFloatOpt rec.semiMinor = .ok smin)
    (hab : pyFloatOpt rec.axisB = .ok ab) :
    ∃ g, ocentricCreate rec pubYear group = .ok g := by
  unfold ocentricCreate
  simp only [hn, hsj, hsn, hab, hb, strOpt_some, exceptBind_ok]
  split
  · simp only [hm, exceptBind_ok]
    unfold wktInit
    rw [if_pos hm0]
    exact ⟨_, rfl⟩
  · simp only [hm, exceptBind_ok]
    obtain ⟨q, hq⟩ := computeInverseFlatteningE_isOk smaj smin (ne_of_gt hsj0)
    simp only [hq, exceptBind_ok]
    unfold wktInit
    rw [if_pos hm0]
    exact ⟨_, rfl⟩

theorem ographicCreate_forbidden_error (rec : WKTRecord) (pubYear group : String)
    (h : isForbiddenToCreateOgraphic rec = .ok true) :
    ographicCreate rec pubYear group =
      .error (.exception "Forbidden to create ographic CRS") := by
  unfold ographicCreate
  simp only [h, exceptBind_ok, if_true]

theorem rule1_false_of_ok_false (rec : WKTRecord)
    (h : isForbiddenToCreateOgraphic rec = .ok false) :
    rec.rotation.isSome = true := by
  by_cases hr : rule1 rec
  · exact absurd h (by simp [isForbiddenToCreateOgraphic, hr, exceptPure_eq])
  · cases hrc : rec.rotation with
    | none => exact absurd (by simp [rule1, hrc]) hr
    | some r => rfl

theorem ographicCreate_isOk (rec : WKTRecord) (pubYear group : String)
    (naifId : Int) (body : String) (mean smaj smin ab : ℚ)
    (hforb : isForbiddenToCreateOgraphic rec = .ok false)
    (hn : pyIntOpt rec.naifId = .ok naifId)
    (hb : rec.body = some body)
    (hm : pyFloatOpt rec.mean = .ok mean) (hm0 : 0 < mean)
    (hsj : pyFloatOpt rec.semiMajor = .ok smaj) (hsj0 : 0 < smaj)
    (hsn : pyFloatOpt rec.semiMinor = .ok smin)
    (hab : pyFloatOpt rec.axisB = .ok ab)
    (hrot : rec.rotation = some "Direct" ∨ rec.rotation = some "Retrograde") :
    ∃ g, ographicCreate rec pubYear group = .ok g := by
  have hlon : ∃ r lon, rec.rotation = some r ∧
      getLongitudeOrderFromRotation r = .ok lon := by
    rcases hrot with hr | hr
    · exact ⟨"Direct", .west, hr, rfl⟩
    · exact ⟨"Retrograde", .east, hr, rfl⟩
  obtain ⟨r, lon, hr, hlonr⟩ := hlon
  unfold ographicCreate
  simp only [hforb, exceptBind_ok, Bool.false_eq_true, if_false, hn, hsj, hsn, hab, hb,
    hr, strOpt_some, exceptBind_ok]
  split
  · simp only [hlonr, exceptBind_ok]
    unfold wktInit
    rw [if_pos (show (0 : ℚ) < 1 by norm_num)]
    exact ⟨_, rfl⟩
  · simp only [hm, exceptBind_ok]
    obtain ⟨q, hq⟩ := computeInverseFlatteningE_isOk smaj smin (ne_of_gt hsj0)
    simp only [hq, exceptBind_ok, hlonr]
    unfold wktInit
    rw [if_pos hm0]
    exact ⟨_, rfl⟩

theorem createProjectedCrs_eq (rec : WKTRecord) (oc : GeoDesc) (og : Option GeoDesc)
    (theYear group : String) (naifId : Int) (body : String)
    (hn : pyIntOpt rec.naifId = .ok naifId)
    (hb : rec.body = some body) :
    createProjectedCrs rec oc og theYear group =
      .ok (expandProjections
        (projPairEntries rec.body body naifId theYear group oc og) projections) := by
  unfold createProjectedCrs
  simp only [hn, exceptBind_ok, hb, strOpt_some, exceptPure_eq]

/-! ### Projection expansion count lemmas -/

theorem expand_counts_none (target : Option String) (body : String) (naifId : Int)
    (theYear group : String) (oc : GeoDesc) (ps : List Projection) :
    ((expandProjections (projPairEntries target body naifId theYear group oc none) ps).filter
      (fun e => e.type = CrsType.ocentric)).length = 0 ∧
    ((expandProjections (projPairEntries target body naifId theYear group oc none) ps).filter
      (fun e => e.type = CrsType.ographic)).length = 0 ∧
    ((expandProjections (projPairEntries target body naifId theYear group oc none) ps).filter
      (fun e => e.type = CrsType.projectedOcentric)).length = ps.length ∧
    ((expandProjections (projPairEntries target body naifId theYear group oc none) ps).filter
      (fun e => e.type = CrsType.projectedOgraphic)).length = 0 := by
  induction ps with
  | nil => simp [expandProjections]
  | cons p ps ih =>
    refine ⟨?_, ?_, ?_, ?_⟩ <;>
      simp [expandProjections, List.filter_append, projPairEntries,
        ih.1, ih.2.1, ih.2.2.1, ih.2.2.2]

theorem expand_counts_some (target : Option String) (body : String) (naifId : Int)
    (theYear group : String) (oc ogd : GeoDesc) (ps : List Projection) :
    ((expandProjections
        (projPairEntries target body naifId theYear group oc (some ogd)) ps).filter
      (fun e => e.type = CrsType.ocentric)).length = 0 ∧
    ((expandProjections
        (projPairEntries target body naifId theYear group oc (some ogd)) ps).filter
      (fun e => e.type = CrsType.ographic)).length = 0 ∧
    ((expandProjections
        (projPairEntries target body naifId theYear group oc (some ogd)) ps).filter
      (fun e => e.type = CrsType.projectedOcentric)).length = ps.length ∧
    ((expandProjections
        (projPairEntries target body naifId theYear group oc (some ogd)) ps).filter
      (fun e => e.type = CrsType.projectedOgraphic)).length = ps.length := by
  induction ps with
  | nil => simp [expandProjections]
  | cons p ps ih =>
    refine ⟨?_, ?_, ?_, ?_⟩ <;>
      simp [expandProjections, List.filter_append, projPairEntries,
        ih.1, ih.2.1, ih.2.2.1, ih.2.2.2]

theorem processFile_cons_line_ok (theYear group : String) (t : List String)
    (rest : List (List String)) (entries tail : List CrsEntry)
    (h : rowSkipCheck t = .ok false) (hl : processLine t theYear group = .ok entries)
    (ht : processFile theYear group rest = .ok tail) :
    processFile theYear group (t :: rest) = .ok (entries ++ tail) := by
  conv_lhs => rw [processFile]
  rw [h]
  simp [exceptBind_ok, hl, ht, exceptPure_eq]

/-! ### Claim C2 -/

/-- C2: on a valid row, `processLine` succeeds with exactly one ocentric
entry and one projected-ocentric entry per projection; an ographic entry
(and its projected-ographic descendants, one per projection) appears exactly
when the forbidden check of the three suppression rules reports `false`. -/
theorem c2_row_descriptor_multiplicity (tokens : List String) (theYear group : String)
    (naifId : Int) (body : String) (mean smaj smin ab : ℚ) (forbidden : Bool)
    (hn : pyIntOpt (setRecord tokens).naifId = .ok naifId)
    (hb : (setRecord tokens).body = some body)
    (hm : pyFloatOpt (setRecord tokens).mean = .ok mean) (hm0 : 0 < mean)
    (hsj : pyFloatOpt (setRecord tokens).semiMajor = .ok smaj) (hsj0 : 0 < smaj)
    (hsn : pyFloatOpt (setRecord tokens).semiMinor = .ok smin)
    (hab : pyFloatOpt (setRecord tokens).axisB = .ok ab)
    (hrot : (setRecord tokens).rotation = none ∨
      (setRecord tokens).rotation = some "Direct" ∨
      (setRecord tokens).rotation = some "Retrograde")
    (hforb : isForbiddenToCreateOgraphic (setRecord tokens) = .ok forbidden) :
    ∃ entries, processLine tokens theYear group = .ok entries ∧
      (entries.filter (fun e => e.type = CrsType.ocentric)).length = 1 ∧
      (entries.filter (fun e => e.type = CrsType.ographic)).length =
        (if forbidden then 0 else 1) ∧
      (entries.filter (fun e => e.type = CrsType.projectedOcentric)).length =
        projections.length ∧
      (entries.filter (fun e => e.type = CrsType.projectedOgraphic)).length =
        (if forbidden then 0 else projections.length) ∧
      (∀ (rest : List (List String)) (tail : List CrsEntry),
        rowSkipCheck tokens = .ok false →
        processFile theYear group rest = .ok tail →
        processFile theYear group (tokens :: rest) = .ok (entries ++ tail)) := by
  obtain ⟨oc, hoc⟩ := ocentricCreate_isOk (setRecord tokens) theYear group naifId body
    mean smaj smin ab hn hb hm hm0 hsj hsj0 hsn hab
  cases forbidden with
  | true =>
    have hogE := ographicCreate_forbidden_error (setRecord tokens) theYear group hforb
    have hpl : processLine tokens theYear group =
        .ok ([⟨(setRecord tokens).body, .geo oc, .ocentric⟩] ++ [] ++
          expandProjections
            (projPairEntries (setRecord tokens).body body naifId theYear group oc none)
            projections) := by
      unfold processLine
      simp only [hoc, exceptBind_ok, hogE, exceptToOption]
      rw [createProjectedCrs_eq (setRecord tokens) oc none theYear group naifId body hn hb,
        exceptBind_ok, exceptPure_eq]
    have hc := expand_counts_none (setRecord tokens).body body naifId theYear group
      oc projections
    refine ⟨_, hpl, ?_, ?_, ?_, ?_,
      fun rest tail hskip htail =>
        processFile_cons_line_ok theYear group tokens rest _ tail hskip hpl htail⟩ <;>
      simp [List.filter_append, hc.1, hc.2.1, hc.2.2.1, hc.2.2.2]
  | false =>
    have hrot2 : (setRecord tokens).rotation = some "Direct" ∨
        (setRecord tokens).rotation = some "Retrograde" := by
      rcases hrot with h0 | h | h
      · have hs := rule1_false_of_ok_false (setRecord tokens) hforb
        rw [h0] at hs
        exact absurd hs (by simp)
      · exact Or.inl h
      · exact Or.inr h
    obtain ⟨og, hog⟩ := ographicCreate_isOk (setRecord tokens) theYear group naifId body
      mean smaj smin ab hforb hn hb hm hm0 hsj hsj0 hsn hab hrot2
    have hpl : processLine tokens theYear group =
        .ok ([⟨(setRecord tokens).body, .geo oc, .ocentric⟩] ++
          [⟨(setRecord tokens).body, .geo og, .ographic⟩] ++
          expandProjections
            (projPairEntries (setRecord tokens).body body naifId theYear group oc (some og))
            projections) := by
      unfold processLine
      simp only [hoc, exceptBind_ok, hog, exceptToOption]
      rw [createProjectedCrs_eq (setRecord tokens) oc (some og) theYear group naifId body
          hn hb, exceptBind_ok, exceptPure_eq]
    have hc := expand_counts_some (setRecord tokens).body body naifId theYear group
      oc og projections
    refine ⟨_, hpl, ?_, ?_, ?_, ?_,
      fun rest tail hskip htail =>
        processFile_cons_line_ok theYear group tokens rest _ tail hskip hpl htail⟩ <;>
      simp [List.filter_append, hc.1, hc.2.1, hc.2.2.1, hc.2.2.2]

/-- Witness for C2 on the Sun 2015 row, where rule 2 suppresses the
ographic descriptor but the ocentric and projected-ocentric entries are
still all emitted. -/
theorem c2_row_descriptor_multiplicity_witness :
    ((exceptGetD (processLine sunTokens "2015" "IAU") []).filter
      (fun e => e.type = CrsType.ocentric)).length = 1 ∧
    ((exceptGetD (processLine sunTokens "2015" "IAU") []).filter
      (fun e => e.type = CrsType.ographic)).length = 0 ∧
    ((exceptGetD (processLine sunTokens "2015" "IAU") []).filter
      (fun e => e.type = CrsType.projectedOcentric)).length = projections.length ∧
    ((exceptGetD (processLine sunTokens "2015" "IAU") []).filter
      (fun e => e.type = CrsType.projectedOgraphic)).length = 0 := by
  obtain ⟨entries, hok, h1, h2, h3, h4, -⟩ :=
    c2_row_descriptor_multiplicity sunTokens "2015" "IAU" 10 "Sun"
      695700000 695700000 695700000 695700000 true
      (by with_unfolding_all rfl) rfl (by with_unfolding_all rfl) (by norm_num)
      (by with_unfolding_all rfl) (by norm_num) (by with_unfolding_all rfl)
      (by with_unfolding_all rfl) (Or.inr (Or.inl rfl)) (by with_unfolding_all rfl)
  have he : exceptGetD (processLine sunTokens "2015" "IAU") [] = entries := by
    rw [hok]
    rfl
  rw [he]
  exact ⟨h1, by simpa using h2, h3, by simpa using h4⟩

/-! ### Claim C1 -/

/-- C1: on the Mars 2015 row the first projected-ocentric entry carries
authority code `"2015:49910"`, and its projected-ographic sibling carries
the same `"2015:49910"` instead of `"2015:49911"`: the incremented gis code
computed for the ographic projection is never stored into the shared
projected record. -/
theorem c1_projected_ographic_code_not_incremented :
    ((exceptGetD (processLine marsTokens "2015" "IAU") []).filter
      (fun e => e.type = CrsType.projectedOcentric)).head?.map entryAuthorityCode =
      some "2015:49910" ∧
    ((exceptGetD (processLine marsTokens "2015" "IAU") []).filter
      (fun e => e.type = CrsType.projectedOgraphic)).head?.map entryAuthorityCode =
      some "2015:49910" ∧
    ("2015:49910" : String) ≠ "2015:49911" :=
  ⟨by with_unfolding_all rfl, by with_unfolding_all rfl, by decide⟩

/-! ### processFile lemmas -/

theorem processFile_cons_skip (theYear group : String) (t : List String)
    (rest : List (List String)) (h : rowSkipCheck t = .ok true) :
    processFile theYear group (t :: rest) = processFile theYear group rest := by
  conv_lhs => rw [processFile]
  rw [h]
  simp [exceptBind_ok]

theorem processFile_cons_error (theYear group : String) (t : List String)
    (rest : List (List String)) (e : PyError) (h : rowSkipCheck t = .error e) :
    processFile theYear group (t :: rest) = .error e := by
  conv_lhs => rw [processFile]
  rw [h]
  simp [exceptBind_error]

theorem processFile_cons_line_error (theYear group : String) (t : List String)
    (rest : List (List String)) (e : PyError)
    (h : rowSkipCheck t = .ok false) (hl : processLine t theYear group = .error e) :
    processFile theYear group (t :: rest) = processFile theYear group rest := by
  conv_lhs => rw [processFile]
  rw [h]
  simp [exceptBind_ok, hl]

theorem rowSkipCheck_not_int (t : List String)
    (h : isIntStr (t.getD 0 "") = false) : rowSkipCheck t = .ok true := by
  unfold rowSkipCheck
  rw [h]
  simp

theorem rowSkipCheck_mean_sentinel (t : List String) (mean : ℚ)
    (hid : isIntStr (t.getD 0 "") = true)
    (hm : pyFloat (t.getD 2 "") = .ok mean) (hs : isEqualB mean (-1) = true) :
    rowSkipCheck t = .ok true := by
  unfold rowSkipCheck
  rw [hid, hm]
  simp [exceptBind_ok, hs]

theorem rowSkipCheck_smaj_sentinel (t : List String) (mean smaj : ℚ)
    (hid : isIntStr (t.getD 0 "") = true)
    (hm : pyFloat (t.getD 2 "") = .ok mean) (hm1 : isEqualB mean (-1) = false)
    (hsj : pyFloat (t.getD 3 "") = .ok smaj) (hs : isEqualB smaj (-1) = true) :
    rowSkipCheck t = .ok true := by
  unfold rowSkipCheck
  rw [hid, hm, hsj]
  simp [exceptBind_ok, hm1, hs]

theorem rowSkipCheck_smin_sentinel (t : List String) (mean smaj smin : ℚ)
    (hid : isIntStr (t.getD 0 "") = true)
    (hm : pyFloat (t.getD 2 "") = .ok mean) (hm1 : isEqualB mean (-1) = false)
    (hsj : pyFloat (t.getD 3 "") = .ok smaj) (hsj1 : isEqualB smaj (-1) = false)
    (hsn : pyFloat (t.getD 5 "") = .ok smin) (hs : isEqualB smin (-1) = true) :
    rowSkipCheck t = .ok true := by
  unfold rowSkipCheck
  rw [hid, hm, hsj, hsn]
  simp [exceptBind_ok, hm1, hsj1, hs]

theorem rowSkipCheck_mean_error (t : List String) (e : PyError)
    (hid : isIntStr (t.getD 0 "") = true)
    (hm : pyFloat (t.getD 2 "") = .error e) : rowSkipCheck t = .error e := by
  unfold rowSkipCheck
  rw [hid, hm]
  simp [exceptBind_error]

theorem rowSkipCheck_smaj_error (t : List String) (mean : ℚ) (e : PyError)
    (hid : isIntStr (t.getD 0 "") = true)
    (hm : pyFloat (t.getD 2 "") = .ok mean) (hm1 : isEqualB mean (-1) = false)
    (hsj : pyFloat (t.getD 3 "") = .error e) : rowSkipCheck t = .error e := by
  unfold rowSkipCheck
  rw [hid, hm, hsj]
  simp [exceptBind_ok, exceptBind_error, hm1]

theorem rowSkipCheck_smin_error (t : List String) (mean smaj : ℚ) (e : PyError)
    (hid : isIntStr (t.getD 0 "") = true)
    (hm : pyFloat (t.getD 2 "") = .ok mean) (hm1 : isEqualB mean (-1) = false)
    (hsj : pyFloat (t.getD 3 "") = .ok smaj) (hsj1 : isEqualB smaj (-1) = false)
    (hsn : pyFloat (t.getD 5 "") = .error e) : rowSkipCheck t = .error e := by
  unfold rowSkipCheck
  rw [hid, hm, hsj, hsn]
  simp [exceptBind_ok, exceptBind_error, hm1, hsj1]

/-! ### Claim C8 -/

/-- C8: a row whose identifier is not an integer or whose mean, semi-major
or semi-minor field equals the sentinel `-1` is skipped entirely and the
remaining rows are processed unchanged; likewise a failure inside one row's
descriptor construction is caught and the batch continues. -/
theorem c8_invalid_rows_skipped_batch_continues (t : List String)
    (rest : List (List String)) (theYear group : String) :
    (isIntStr (t.getD 0 "") = false →
      processFile theYear group (t :: rest) = processFile theYear group rest) ∧
    (∀ mean : ℚ, isIntStr (t.getD 0 "") = true →
      pyFloat (t.getD 2 "") = .ok mean → isEqualB mean (-1) = true →
      processFile theYear group (t :: rest) = processFile theYear group rest) ∧
    (∀ mean smaj : ℚ, isIntStr (t.getD 0 "") = true →
      pyFloat (t.getD 2 "") = .ok mean → isEqualB mean (-1) = false →
      pyFloat (t.getD 3 "") = .ok smaj → isEqualB smaj (-1) = true →
      processFile theYear group (t :: rest) = processFile theYear group rest) ∧
    (∀ mean smaj smin : ℚ, isIntStr (t.getD 0 "") = true →
      pyFloat (t.getD 2 "") = .ok mean → isEqualB mean (-1) = false →
      pyFloat (t.getD 3 "") = .ok smaj → isEqualB smaj (-1) = false →
      pyFloat (t.getD 5 "") = .ok smin → isEqualB smin (-1) = true →
      processFile theYear group (t :: rest) = processFile theYear group rest) ∧
    (∀ e : PyError, rowSkipCheck t = .ok false →
      processLine t theYear group = .error e →
      processFile theYear group (t :: rest) = processFile theYear group rest) := by
  refine ⟨fun h => ?_, fun mean hid hm hs => ?_, fun mean smaj hid hm hm1 hsj hs => ?_,
    fun mean smaj smin hid hm hm1 hsj hsj1 hsn hs => ?_, fun e hskip hl => ?_⟩
  · exact processFile_cons_skip theYear group t rest (rowSkipCheck_not_int t h)
  · exact processFile_cons_skip theYear group t rest
      (rowSkipCheck_mean_sentinel t mean hid hm hs)
  · exact processFile_cons_skip theYear group t rest
      (rowSkipCheck_smaj_sentinel t mean smaj hid hm hm1 hsj hs)
  · exact processFile_cons_skip theYear group t rest
      (rowSkipCheck_smin_sentinel t mean smaj smin hid hm hm1 hsj hsj1 hsn hs)
  · exact processFile_cons_line_error theYear group t rest e hskip hl

/-- Witness for C8: the Halley row with sentinel `-1` semi-major is skipped
while the following Mars row is still processed. -/
theorem c8_invalid_rows_skipped_batch_continues_witness :
    processFile "2015" "IAU" [halleyTokens, marsTokens] =
      processFile "2015" "IAU" [marsTokens] :=
  (c8_invalid_rows_skipped_batch_continues halleyTokens [marsTokens] "2015" "IAU").2.2.1
    5500 (-1) (by with_unfolding_all rfl) (by with_unfolding_all rfl)
    (by with_unfolding_all rfl) (by with_unfolding_all rfl) (by with_unfolding_all rfl)

/-! ### Claim C10 -/

/-- C10: when the identifier parses as an integer but the Mean, Semimajor or
Semiminor token fails `float()`, the error occurs in the validation test
itself, outside the per-row isolation: the whole batch fails and no further
rows are processed. -/
theorem c10_validation_failure_aborts_batch (t : List String)
    (rest : List (List String)) (theYear group : String) (e : PyError)
    (hid : isIntStr (t.getD 0 "") = true) :
    (pyFloat (t.getD 2 "") = .error e →
      processFile theYear group (t :: rest) = .error e) ∧
    (∀ mean : ℚ, pyFloat (t.getD 2 "") = .ok mean → isEqualB mean (-1) = false →
      pyFloat (t.getD 3 "") = .error e →
      processFile theYear group (t :: rest) = .error e) ∧
    (∀ mean smaj : ℚ, pyFloat (t.getD 2 "") = .ok mean → isEqualB mean (-1) = false →
      pyFloat (t.getD 3 "") = .ok smaj → isEqualB smaj (-1) = false →
      pyFloat (t.getD 5 "") = .error e →
      processFile theYear group (t :: rest) = .error e) := by
  refine ⟨fun hm => ?_, fun mean hm hm1 hsj => ?_, fun mean smaj hm hm1 hsj hsj1 hsn => ?_⟩
  · exact processFile_cons_error theYear group t rest e (rowSkipCheck_mean_error t e hid hm)
  · exact processFile_cons_error theYear group t rest e
      (rowSkipCheck_smaj_error t mean e hid hm hm1 hsj)
  · exact processFile_cons_error theYear group t rest e
      (rowSkipCheck_smin_error t mean smaj e hid hm hm1 hsj hsj1 hsn)

/-- Witness for C10: an integer-id row with an empty Mean token makes the
whole batch fail even though a valid Mars row follows. -/
theorem c10_validation_failure_aborts_batch_witness :
    processFile "2015" "IAU" [badMeanTokens, marsTokens] =
      .error (.valueError "") :=
  (c10_validation_failure_aborts_batch badMeanTokens [marsTokens] "2015" "IAU"
    (.valueError "") rfl).1 rfl

end IAU2000
